import Mathlib

/-!
Verification of the ACH/NACHA fixed-width file parser.

The definitions below are a shallow embedding of the source module
`ach_nacha_file_parser_(_lob).py`: the schema registry `RECORD_DEFINITIONS`,
the record decoder `parse_record`, and the stateful hierarchy assembler
`parse_ach_file_content`.  Python dicts become association lists, the
mutable `current_batch` / `current_entry` aliases become indices into the
growing result tree, and the module-level registry is threaded explicitly.
-/

namespace ACH

/-- Python `str.strip` whitespace set (ASCII part). -/
def pyIsSpace (c : Char) : Bool :=
  c = ' ' || c = '\t' || c = '\n' || c = '\r' || c = '\x0b' || c = '\x0c'

def pyStripChars (l : List Char) : List Char :=
  ((l.dropWhile pyIsSpace).reverse.dropWhile pyIsSpace).reverse

/-- Python `line.strip()`. -/
def pyStrip (s : String) : String :=
  String.mk (pyStripChars s.data)

/-- Python `line[start:stop]` for `0 ≤ start ≤ stop`. -/
def pySlice (s : String) (start stop : Nat) : String :=
  String.mk ((s.data.drop start).take (stop - start))

/-- Python `all(c == '9' for c in s)` (true on the empty string). -/
def allNine (s : String) : Bool :=
  s.data.all (fun c => c = '9')

/-- Python `line.startswith("9")`. -/
def listStarts : List Char → List Char → Bool
  | _, [] => true
  | [], _ :: _ => false
  | a :: as, b :: bs => a = b && listStarts as bs

def startsWithNine (s : String) : Bool :=
  listStarts s.data ['9']

/-- Python `s.endswith(suf)`. -/
def strEnds (s suf : String) : Bool :=
  listStarts s.data.reverse suf.data.reverse

/-- Python `pat in s` (substring containment). -/
def listHasSub : List Char → List Char → Bool
  | [], pat => listStarts [] pat
  | l@(_ :: rest), pat => listStarts l pat || listHasSub rest pat

def strHasSub (s pat : String) : Bool :=
  listHasSub s.data pat.data

def digitVal (c : Char) : Option Nat :=
  if c.isDigit then some (c.toNat - '0'.toNat) else none

/-- Digits after the first one, permitting single underscores between digits,
as Python `int` does. -/
def pyDigitsCore : List Char → Nat → Option Nat
  | [], acc => some acc
  | ['_'], _ => none
  | '_' :: c :: rest, acc =>
    match digitVal c with
    | some d => pyDigitsCore rest (acc * 10 + d)
    | none => none
  | c :: rest, acc =>
    match digitVal c with
    | some d => pyDigitsCore rest (acc * 10 + d)
    | none => none

def pyNat? : List Char → Option Nat
  | [] => none
  | c :: rest =>
    match digitVal c with
    | some d => pyDigitsCore rest d
    | none => none

/-- Python `int(s)` on an already-stripped string: optional sign followed by
base-10 digits. -/
def pyInt? (s : String) : Option Int :=
  match s.data with
  | '+' :: rest => (pyNat? rest).map Int.ofNat
  | '-' :: rest => (pyNat? rest).map (fun n => -(n : Int))
  | l => (pyNat? l).map Int.ofNat

/-- A decoded field value: Python stores either the trimmed text or, for the
fields subjected to numeric coercion, an `int`. -/
inductive FieldValue
  | str (s : String)
  | int (n : Int)
deriving DecidableEq

/-- A decoded record: the Python per-record dict, as an ordered association
list (Python dicts preserve insertion order). -/
abbrev RecMap := List (String × FieldValue)

def recGet? (r : RecMap) (k : String) : Option FieldValue :=
  (r.find? (fun p => p.1 == k)).map Prod.snd

def recHas (r : RecMap) (k : String) : Bool :=
  r.any (fun p => p.1 == k)

/-- One line of `RECORD_DEFINITIONS`: `'name': (start, end, "Description")`. -/
structure FieldSpec where
  name : String
  start : Nat
  stop : Nat
  descr : String
deriving DecidableEq

abbrev RecordDef := List FieldSpec

abbrev Registry := List (Char × RecordDef)

def defn1 : RecordDef := [
  ⟨"record_type_code", 0, 1, "Record Type Code"⟩,
  ⟨"priority_code", 1, 3, "Priority Code"⟩,
  ⟨"immediate_destination", 3, 13, "Immediate Destination"⟩,
  ⟨"immediate_origin", 13, 23, "Immediate Origin"⟩,
  ⟨"file_creation_date", 23, 29, "File Creation Date (YYMMDD)"⟩,
  ⟨"file_creation_time", 29, 33, "File Creation Time (HHMM)"⟩,
  ⟨"file_id_modifier", 33, 34, "File ID Modifier"⟩,
  ⟨"record_size", 34, 37, "Record Size (must be 094)"⟩,
  ⟨"blocking_factor", 37, 39, "Blocking Factor (must be 10)"⟩,
  ⟨"format_code", 39, 40, "Format Code (must be 1)"⟩,
  ⟨"immediate_destination_name", 40, 63, "Immediate Destination Name"⟩,
  ⟨"immediate_origin_name", 63, 86, "Immediate Origin Name"⟩,
  ⟨"reference_code", 86, 94, "Reference Code"⟩]

def defn5 : RecordDef := [
  ⟨"record_type_code", 0, 1, "Record Type Code"⟩,
  ⟨"service_class_code", 1, 4, "Service Class Code (200=Mixed, 220=Credits, 225=Debits)"⟩,
  ⟨"company_name", 4, 20, "Company Name"⟩,
  ⟨"company_discretionary_data", 20, 40, "Company Discretionary Data"⟩,
  ⟨"company_identification", 40, 50, "Company Identification (EIN or DDA)"⟩,
  ⟨"standard_entry_class_code", 50, 53, "Standard Entry Class Code (e.g., PPD, CCD)"⟩,
  ⟨"company_entry_description", 53, 63, "Company Entry Description"⟩,
  ⟨"company_descriptive_date", 63, 69, "Company Descriptive Date (YYMMDD or other)"⟩,
  ⟨"effective_entry_date", 69, 75, "Effective Entry Date (YYMMDD)"⟩,
  ⟨"settlement_date_julian", 75, 78, "Settlement Date (Julian)"⟩,
  ⟨"originator_status_code", 78, 79, "Originator Status Code (1=DFI)"⟩,
  ⟨"originating_dfi_identification", 79, 87, "Originating DFI Identification (Routing Number)"⟩,
  ⟨"batch_number", 87, 94, "Batch Number"⟩]

def defn6 : RecordDef := [
  ⟨"record_type_code", 0, 1, "Record Type Code"⟩,
  ⟨"transaction_code", 1, 3, "Transaction Code"⟩,
  ⟨"receiving_dfi_identification", 3, 11, "Receiving DFI Identification (Routing Number, first 8 digits)"⟩,
  ⟨"check_digit", 11, 12, "Check Digit (9th digit of routing number)"⟩,
  ⟨"dfi_account_number", 12, 29, "DFI Account Number"⟩,
  ⟨"amount", 29, 39, "Amount (cents)"⟩,
  ⟨"individual_identification_number", 39, 54, "Individual Identification Number (Receiver ID)"⟩,
  ⟨"individual_name", 54, 76, "Individual Name (Receiver Name)"⟩,
  ⟨"discretionary_data", 76, 78, "Discretionary Data (Payment Type Code)"⟩,
  ⟨"addenda_record_indicator", 78, 79, "Addenda Record Indicator (0=No, 1=Yes)"⟩,
  ⟨"trace_number", 79, 94, "Trace Number"⟩]

def defn7 : RecordDef := [
  ⟨"record_type_code", 0, 1, "Record Type Code"⟩,
  ⟨"addenda_type_code", 1, 3, "Addenda Type Code (e.g., 05 for payment related)"⟩,
  ⟨"payment_related_information", 3, 83, "Payment Related Information"⟩,
  ⟨"addenda_sequence_number", 83, 87, "Addenda Sequence Number"⟩,
  ⟨"entry_detail_sequence_number", 87, 94, "Entry Detail Sequence Number"⟩]

def defn8 : RecordDef := [
  ⟨"record_type_code", 0, 1, "Record Type Code"⟩,
  ⟨"service_class_code", 1, 4, "Service Class Code (matches Batch Header)"⟩,
  ⟨"entry_addenda_count", 4, 10, "Entry/Addenda Count"⟩,
  ⟨"entry_hash", 10, 20, "Entry Hash (Sum of RDFI ID numbers)"⟩,
  ⟨"total_debit_entry_dollar_amount", 20, 32, "Total Debit Entry Dollar Amount (cents)"⟩,
  ⟨"total_credit_entry_dollar_amount", 32, 44, "Total Credit Entry Dollar Amount (cents)"⟩,
  ⟨"company_identification", 44, 54, "Company Identification (matches Batch Header)"⟩,
  ⟨"message_authentication_code", 54, 73, "Message Authentication Code (MAC)"⟩,
  ⟨"reserved", 73, 79, "Reserved"⟩,
  ⟨"originating_dfi_identification", 79, 87, "Originating DFI Identification (matches Batch Header)"⟩,
  ⟨"batch_number", 87, 94, "Batch Number (matches Batch Header)"⟩]

def defn9 : RecordDef := [
  ⟨"record_type_code", 0, 1, "Record Type Code"⟩,
  ⟨"batch_count", 1, 7, "Batch Count"⟩,
  ⟨"block_count", 7, 13, "Block Count (lines/10, rounded up)"⟩,
  ⟨"entry_addenda_count", 13, 21, "Entry/Addenda Count"⟩,
  ⟨"entry_hash", 21, 31, "Entry Hash (Sum of Entry Hash totals from Batch Control)"⟩,
  ⟨"total_debit_entry_dollar_amount_in_file", 31, 43, "Total Debit Entry Dollar Amount in File (cents)"⟩,
  ⟨"total_credit_entry_dollar_amount_in_file", 43, 55, "Total Credit Entry Dollar Amount in File (cents)"⟩,
  ⟨"reserved", 55, 94, "Reserved"⟩]

def RECORD_DEFINITIONS : Registry :=
  [('1', defn1), ('5', defn5), ('6', defn6), ('7', defn7), ('8', defn8), ('9', defn9)]

def lookupDef (reg : Registry) (c : Char) : Option RecordDef :=
  (reg.find? (fun p => p.1 == c)).map Prod.snd

/-- The field names singled out for numeric coercion in `parse_record`. -/
def numericFields : List String :=
  ["amount", "total_debit_entry_dollar_amount", "total_credit_entry_dollar_amount",
   "entry_addenda_count", "entry_hash", "batch_count", "block_count",
   "total_debit_entry_dollar_amount_in_file", "total_credit_entry_dollar_amount_in_file"]

/-- `int(value) if value else 0`, keeping the string on `ValueError`. -/
def intCoerce (value : String) : FieldValue :=
  if value = "" then FieldValue.int 0
  else
    match pyInt? value with
    | some n => FieldValue.int n
    | none => FieldValue.str value

/-- Per-field decode: store the trimmed text, then overwrite with the integer
coercion when the name is in the numeric list and contains one of the
substrings "amount" / "hash" / "count" (all nine listed names do). -/
def decodeFieldValue (name value : String) : FieldValue :=
  if name ∈ numericFields then
    if strHasSub name "amount" then intCoerce value
    else if strHasSub name "hash" then intCoerce value
    else if strHasSub name "count" then intCoerce value
    else FieldValue.str value
  else FieldValue.str value

/-- The loop body of `parse_record` for a known record type:
`line[start:min(end, len(line))].strip()` per field, then numeric coercion. -/
def decodeFields (defn : RecordDef) (line : String) : RecMap :=
  defn.map (fun f =>
    (f.name, decodeFieldValue f.name (pyStrip (pySlice line f.start (min f.stop line.length)))))

def strHead? (s : String) : Option Char :=
  s.data.head?

/-- `parse_record(line)`: `none` on the empty line; tag "filler"/"unknown"
with a `raw_line` field for unregistered types; otherwise the record type
(1-character string) with the schema-decoded field map. -/
def parse_record (reg : Registry) (line : String) : Option (String × RecMap) :=
  match strHead? line with
  | none => none
  | some record_type =>
    match lookupDef reg record_type with
    | none =>
      if record_type = '9' && allNine line then
        some ("filler", [("raw_line", FieldValue.str (pyStrip line))])
      else
        some ("unknown", [("raw_line", FieldValue.str (pyStrip line))])
    | some defn =>
      some (String.mk [record_type], decodeFields defn line)

/-- Python `repr` of a decoded value (record values are quote-free ASCII). -/
def fvRepr : FieldValue → String
  | FieldValue.str s => "\x27" ++ s ++ "\x27"
  | FieldValue.int n => toString n

/-- Python `repr` of a record dict, in insertion order. -/
def recRepr (r : RecMap) : String :=
  "\x7b" ++ String.intercalate ", " (r.map (fun p => "\x27" ++ p.1 ++ "\x27: " ++ fvRepr p.2)) ++ "\x7d"

def lengthMsg (ln : Nat) (line : String) : String :=
  "Line " ++ toString ln ++ ": Expected 94 characters, got " ++ toString line.length ++
    ". Content: \x27" ++ pyStrip line ++ "\x27"

def parseMsg (ln : Nat) (line : String) : String :=
  "Line " ++ toString ln ++ ": Could not parse line. Content: \x27" ++ pyStrip line ++ "\x27"

def batchOpenMsg (ln : Nat) : String :=
  "Line " ++ toString ln ++ ": Unexpected Batch Header. Previous batch not closed."

def entryOutsideMsg (ln : Nat) : String :=
  "Line " ++ toString ln ++ ": Entry Detail Record found outside of a batch."

def addendaNoEntryMsg (ln : Nat) : String :=
  "Line " ++ toString ln ++ ": Addenda Record found without a preceding Entry Detail."

def associateMsg (ln : Nat) (parsed : RecMap) : String :=
  "Line " ++ toString ln ++ ": Could not associate Addenda with an Entry. Addenda: " ++ recRepr parsed

def batchControlOutsideMsg (ln : Nat) : String :=
  "Line " ++ toString ln ++ ": Batch Control Record found outside of a batch context."

def unknownMsg (ln : Nat) (parsed : RecMap) : String :=
  "Line " ++ toString ln ++ ": Encountered an unknown record type. Data: " ++ recRepr parsed

def invalidContentMsg : String :=
  "Invalid ACH content type. Expected string or list of strings."

/-- An Entry Detail record together with its `addenda` list. -/
structure Entry where
  detail : RecMap
  addenda : List RecMap
deriving DecidableEq

/-- A Batch Header record together with its `entries` list and optional
`batch_control` record. -/
structure Batch where
  header : RecMap
  entries : List Entry
  batch_control : Option RecMap
deriving DecidableEq

/-- The `ach_data` result dict. -/
structure ParseResult where
  file_header : Option RecMap
  batches : List Batch
  file_control : Option RecMap
  errors : List String
  other_records : List (String × RecMap)
deriving DecidableEq

/-- Assembler state: the result under construction plus the
`current_batch` / `current_entry` aliases.  Python aliases a dict inside the
result tree; the embedding uses the index of the batch in `batches`, and the
pair (batch index, entry index) for the current entry. -/
structure PState where
  file_header : Option RecMap
  batches : List Batch
  file_control : Option RecMap
  errors : List String
  other_records : List (String × RecMap)
  current_batch : Option Nat
  current_entry : Option (Nat × Nat)
deriving DecidableEq

def initState : PState :=
  ⟨none, [], none, [], [], none, none⟩

def toResult (st : PState) : ParseResult :=
  ⟨st.file_header, st.batches, st.file_control, st.errors, st.other_records⟩

/-- In-place mutation of the i-th element of a Python list. -/
def modifyAt {α : Type} : List α → Nat → (α → α) → List α
  | [], _, _ => []
  | a :: rest, 0, f => f a :: rest
  | a :: rest, Nat.succ j, f => a :: modifyAt rest j f

def entriesLen (st : PState) (bi : Nat) : Nat :=
  match st.batches.get? bi with
  | some b => b.entries.length
  | none => 0

/-- The dict the `current_entry` alias points at. -/
def entryDetailAt (st : PState) (bi ei : Nat) : RecMap :=
  match st.batches.get? bi with
  | some b =>
    match b.entries.get? ei with
    | some e => e.detail
    | none => []
  | none => []

/-- `current_entry.get("trace_number", "")`.  The '6' schema never coerces
this field, so the value is always a string. -/
def traceOf (r : RecMap) : String :=
  match recGet? r "trace_number" with
  | some (FieldValue.str s) => s
  | some (FieldValue.int n) => toString n
  | none => ""

/-- The addenda fallback: append to the last entry of the current batch when
it has entries, otherwise log an association error. -/
def addendaFallback (st : PState) (ln : Nat) (parsed : RecMap) : PState :=
  match st.current_batch with
  | some bi =>
    if entriesLen st bi != 0 then
      { st with batches := modifyAt st.batches bi (fun b =>
          { b with entries := modifyAt b.entries (b.entries.length - 1) (fun e =>
              { e with addenda := e.addenda ++ [parsed] }) }) }
    else { st with errors := st.errors ++ [associateMsg ln parsed] }
  | none => { st with errors := st.errors ++ [associateMsg ln parsed] }

/-- The per-record dispatch of `parse_ach_file_content` (the `if/elif` chain
on `record_type`).  In the '7' branch, a missing or empty
`entry_detail_sequence_number` is falsy in Python, so it takes the fallback;
the '7' schema never coerces that field, so an `int` value cannot occur
there.  In the '9' branch, a schema-decoded record never carries a
`raw_line` key, so the filler test reads absent keys as not-all-nines. -/
def dispatch (st : PState) (ln : Nat) (tag : String) (parsed : RecMap) : PState :=
  if tag == "1" then
    { st with file_header := some parsed }
  else if tag == "5" then
    let st1 := if st.current_batch.isSome
      then { st with errors := st.errors ++ [batchOpenMsg ln] } else st
    { st1 with
        batches := st1.batches ++ [{ header := parsed, entries := [], batch_control := none }],
        current_batch := some st1.batches.length }
  else if tag == "6" then
    match st.current_batch with
    | none => { st with errors := st.errors ++ [entryOutsideMsg ln] }
    | some bi =>
      { st with
          batches := modifyAt st.batches bi (fun b =>
            { b with entries := b.entries ++ [{ detail := parsed, addenda := [] }] }),
          current_entry := some (bi, entriesLen st bi) }
  else if tag == "7" then
    match st.current_entry with
    | none => { st with errors := st.errors ++ [addendaNoEntryMsg ln] }
    | some (bi, ei) =>
      match recGet? parsed "entry_detail_sequence_number" with
      | some (FieldValue.str s) =>
        if s != "" && strEnds (traceOf (entryDetailAt st bi ei)) s then
          { st with batches := modifyAt st.batches bi (fun b =>
              { b with entries := modifyAt b.entries ei (fun e =>
                  { e with addenda := e.addenda ++ [parsed] }) }) }
        else addendaFallback st ln parsed
      | _ => addendaFallback st ln parsed
  else if tag == "8" then
    match st.current_batch with
    | none => { st with errors := st.errors ++ [batchControlOutsideMsg ln] }
    | some bi =>
      { st with
          batches := modifyAt st.batches bi (fun b => { b with batch_control := some parsed }),
          current_batch := none,
          current_entry := none }
  else if tag == "9" then
    if (match recGet? parsed "raw_line" with
        | some (FieldValue.str s) => allNine s
        | _ => false) then
      { st with other_records := st.other_records ++ [("filler", parsed)] }
    else if recHas parsed "batch_count" then
      { st with file_control := some parsed }
    else
      { st with file_control := some parsed }
  else if tag == "filler" then
    { st with other_records := st.other_records ++ [("filler", parsed)] }
  else if tag == "unknown" then
    { st with
        other_records := st.other_records ++ [("unknown", parsed)],
        errors := st.errors ++ [unknownMsg ln parsed] }
  else st

/-- Decode the line and dispatch it (`parse_record` call plus the
could-not-parse guard of the loop body). -/
def dispatchDecoded (reg : Registry) (st : PState) (ln : Nat) (line : String) : PState :=
  match parse_record reg line with
  | none => { st with errors := st.errors ++ [parseMsg ln line] }
  | some (tag, parsed) => dispatch st ln tag parsed

/-- One iteration of the main loop: skip blank lines, run the 94-character
length check (excused for lines that start with '9' and strip to all
'9's; the inner strict all-'9' test is subsumed by the excuse), then decode
and dispatch. -/
def stepLine (reg : Registry) (st : PState) (ln : Nat) (line : String) : PState :=
  if (pyStrip line).length == 0 then st
  else
    let st1 :=
      if line.length != 94 && !(startsWithNine line && allNine (pyStrip line)) then
        if !(allNine line) then { st with errors := st.errors ++ [lengthMsg ln line] } else st
      else st
    dispatchDecoded reg st1 ln line

/-- The enumerated `for` loop, starting at 1-based line number `ln`. -/
def runFrom (reg : Registry) (st : PState) (ln : Nat) : List String → PState
  | [] => st
  | line :: rest => runFrom reg (stepLine reg st ln line) (ln + 1) rest

/-- Python `str.splitlines()` restricted to the line boundaries that occur in
ACH content: "\r\n", "\r", "\n" (no trailing empty line for a terminal
newline). -/
def splitlinesAux : List Char → List Char → List String
  | [], acc => if acc.isEmpty then [] else [String.mk acc.reverse]
  | '\r' :: '\n' :: rest, acc => String.mk acc.reverse :: splitlinesAux rest []
  | '\r' :: rest, acc => String.mk acc.reverse :: splitlinesAux rest []
  | '\n' :: rest, acc => String.mk acc.reverse :: splitlinesAux rest []
  | c :: rest, acc => splitlinesAux rest (c :: acc)

def pySplitlines (s : String) : List String :=
  splitlinesAux s.data []

/-- Re-chunk a break-free block into fixed 94-character windows
(`range(0, len(ach_content), 94)`). -/
def chunk94 (l : List Char) : List String :=
  if h : l = [] then []
  else
    String.mk (l.take 94) :: chunk94 (l.drop 94)
termination_by l.length
decreasing_by
  have hl : 0 < l.length := List.length_pos.mpr h
  simp only [List.length_drop]
  omega

/-- A Python value appearing in a list passed to the parser: a string, or
anything else (on which `line.strip()` raises `AttributeError`). -/
inductive PyItem
  | str (s : String)
  | nonStr
deriving DecidableEq

/-- The dynamically-typed `ach_content` argument: a string, a list, or any
other Python value. -/
inductive AchContent
  | str (s : String)
  | list (items : List PyItem)
  | other
deriving DecidableEq

def isStrItem : PyItem → Bool
  | PyItem.str _ => true
  | PyItem.nonStr => false

def itemStr : PyItem → Option String
  | PyItem.str s => some s
  | PyItem.nonStr => none

/-- `parse_ach_file_content(ach_content)`.  A list containing a non-string
makes the Python loop raise `AttributeError` at `line.strip()`; every other
input returns normally. -/
def parse_ach_file_content (reg : Registry) (c : AchContent) : Except String ParseResult :=
  match c with
  | AchContent.str s =>
    let lines := if s.data.contains '\n' then pySplitlines s else chunk94 s.data
    Except.ok (toResult (runFrom reg initState 1 lines))
  | AchContent.list items =>
    if items.all isStrItem then
      Except.ok (toResult (runFrom reg initState 1 (items.filterMap itemStr)))
    else
      Except.error "AttributeError"
  | AchContent.other =>
    Except.ok ⟨none, [], none, [invalidContentMsg], []⟩

/-- The parser with the module-level registry threaded through explicitly:
the source only ever reads `RECORD_DEFINITIONS`, so the registry comes back
unchanged. -/
def parse_ach_file_content_env (reg : Registry) (c : AchContent) :
    Except String ParseResult × Registry :=
  (parse_ach_file_content reg c, reg)

/-! Concrete input lines used by the witnesses and counterexamples. -/

/-- A full filler line: 94 characters, all `'9'`. -/
def c1nines : String := String.mk (List.replicate 94 '9')

def c2l1 : String := "1" ++ String.mk (List.replicate 93 ' ')
def c2l2 : String := "5" ++ String.mk (List.replicate 93 ' ')
def c2l3 : String := "6" ++ String.mk (List.replicate 78 ' ') ++ "000000000000001"
def c2l4 : String := "7" ++ String.mk (List.replicate 86 ' ') ++ "0000001"
def c2l5 : String := "8" ++ String.mk (List.replicate 93 ' ')
def c2l6 : String := "9" ++ String.mk (List.replicate 93 ' ')

def c3l1 : String := "5" ++ String.mk (List.replicate 93 ' ')
def c3l2 : String := "5" ++ String.mk (List.replicate 92 ' ') ++ "2"

def c4h1 : String := "5" ++ String.mk (List.replicate 93 ' ')
def c4e1 : String := "6" ++ String.mk (List.replicate 78 ' ') ++ "000000000000001"
def c4h2 : String := "5" ++ String.mk (List.replicate 92 ' ') ++ "2"
/-- An addenda line whose `entry_detail_sequence_number` field is blank. -/
def c4sp : String := "7" ++ String.mk (List.replicate 93 ' ')
/-- An addenda line whose sequence number `0000001` matches the trace. -/
def c4match : String := "7" ++ String.mk (List.replicate 86 ' ') ++ "0000001"

def c5h1 : String := "5" ++ String.mk (List.replicate 93 ' ')
def c5e1 : String := "6" ++ String.mk (List.replicate 78 ' ') ++ "000000000000001"
def c5h2 : String := "5" ++ String.mk (List.replicate 92 ' ') ++ "2"

/-- An entry-detail line whose amount field `[29,39)` reads `0000100000`. -/
def c8line : String :=
  "6" ++ String.mk (List.replicate 28 ' ') ++ "0000100000" ++ String.mk (List.replicate 55 ' ')

/-! Predicates used by the structural preservation lemmas. -/

/-- A batch modification that leaves the header and the control untouched
(the assembler only ever appends entries or addenda through these). -/
def entriesOnly (f : Batch → Batch) : Prop :=
  ∀ b, (f b).header = b.header ∧ (f b).batch_control = b.batch_control

/-- A batch modification that only sets the control. -/
def controlOnly (f : Batch → Batch) : Prop :=
  ∀ b, (f b).header = b.header ∧ (f b).entries = b.entries

/-- Context indices stay inside the batch list. -/
def WF (st : PState) : Prop :=
  (∀ j, st.current_batch = some j → j < st.batches.length) ∧
  (∀ q : Nat × Nat, st.current_entry = some q → q.1 < st.batches.length)

/-- Batch `m` sits in the list with header `hdr`, no entries and no control,
and neither context alias points at it: nothing can ever touch it again. -/
def BatchFrozen (m : Nat) (hdr : RecMap) (st : PState) : Prop :=
  st.batches.get? m = some ⟨hdr, [], none⟩ ∧
  (∀ j, st.current_batch = some j → m < j) ∧
  (∀ q : Nat × Nat, st.current_entry = some q → q.1 ≠ m)

/-- Batch `j` is present with header `hdr` (headers are never mutated). -/
def HeaderAt (j : Nat) (hdr : RecMap) (st : PState) : Prop :=
  (st.batches.get? j).map Batch.header = some hdr

/-- Everything one loop iteration can do to the batch list and the two
context aliases: leave them alone, append a fresh batch ('5'), append an
entry to the current batch ('6'), append an addenda inside the batch the
current-entry alias or the current-batch alias points at ('7'), or set the
control of the current batch and clear both aliases ('8'). -/
def StepEffect (st st' : PState) : Prop :=
  (st'.batches = st.batches ∧ st'.current_batch = st.current_batch ∧
    st'.current_entry = st.current_entry)
  ∨ (∃ p, st'.batches = st.batches ++ [⟨p, [], none⟩] ∧
      st'.current_batch = some st.batches.length ∧
      st'.current_entry = st.current_entry)
  ∨ (∃ bi f, entriesOnly f ∧ st.current_batch = some bi ∧
      st'.batches = modifyAt st.batches bi f ∧
      st'.current_batch = st.current_batch ∧
      st'.current_entry = some (bi, entriesLen st bi))
  ∨ (∃ bi f, entriesOnly f ∧
      ((∃ ei, st.current_entry = some (bi, ei)) ∨ st.current_batch = some bi) ∧
      st'.batches = modifyAt st.batches bi f ∧
      st'.current_batch = st.current_batch ∧
      st'.current_entry = st.current_entry)
  ∨ (∃ bi f, controlOnly f ∧ st.current_batch = some bi ∧
      st'.batches = modifyAt st.batches bi f ∧
      st'.current_batch = none ∧
      st'.current_entry = none)

/-! Basic lemmas about the embedding's helpers. -/

theorem modifyAt_length {α : Type} (l : List α) (i : Nat) (f : α → α) :
    (modifyAt l i f).length = l.length := by
  induction l generalizing i with
  | nil => rfl
  | cons a rest ih =>
    cases i with
    | zero => rfl
    | succ j => simp [modifyAt, ih]

theorem modifyAt_get?_eq {α : Type} (l : List α) (i : Nat) (f : α → α) :
    (modifyAt l i f).get? i = (l.get? i).map f := by
  induction l generalizing i with
  | nil => cases i <;> rfl
  | cons a rest ih =>
    cases i with
    | zero => rfl
    | succ j => simpa [modifyAt] using ih j

theorem modifyAt_get?_ne {α : Type} (l : List α) (i j : Nat) (f : α → α) (h : j ≠ i) :
    (modifyAt l i f).get? j = l.get? j := by
  induction l generalizing i j with
  | nil => cases i <;> rfl
  | cons a rest ih =>
    cases i with
    | zero =>
      cases j with
      | zero => exact absurd rfl h
      | succ j' => rfl
    | succ i' =>
      cases j with
      | zero => rfl
      | succ j' =>
        have : j' ≠ i' := fun hc => h (by omega)
        simpa [modifyAt] using ih i' j' this

theorem runFrom_cons (reg : Registry) (st : PState) (k : Nat) (line : String)
    (rest : List String) :
    runFrom reg st k (line :: rest) = runFrom reg (stepLine reg st k line) (k + 1) rest := rfl

theorem runFrom_append (reg : Registry) (st : PState) (k : Nat) (xs ys : List String) :
    runFrom reg st k (xs ++ ys) = runFrom reg (runFrom reg st k xs) (k + xs.length) ys := by
  induction xs generalizing st k with
  | nil => simp [runFrom]
  | cons a rest ih =>
    simp only [List.cons_append, runFrom, List.length_cons]
    rw [show rest.append ys = rest ++ ys from rfl, ih]
    congr 1
    omega

theorem pyStrip_ne_nil_of_head (line : String) (c : Char)
    (hhead : strHead? line = some c) (hcs : pyIsSpace c = false) :
    (pyStrip line).length ≠ 0 := by
  cases hd : line.data with
  | nil => simp [strHead?, hd] at hhead
  | cons a t =>
    have ha : a = c := by simpa [strHead?, hd] using hhead
    subst ha
    have h1 : (a :: t).dropWhile pyIsSpace = a :: t := by
      simp [List.dropWhile_cons, hcs]
    have h2 : ((a :: t).reverse.dropWhile pyIsSpace) ≠ [] := by
      intro hnil
      have := List.dropWhile_eq_nil_iff.mp hnil a (by simp)
      simp [hcs] at this
    have : pyStripChars (a :: t) ≠ [] := by
      simp only [pyStripChars, h1, ne_eq, List.reverse_eq_nil_iff]
      exact h2
    simp only [pyStrip, hd]
    simpa [String.length] using this

/-! Characterization of one loop iteration on a well-formed 94-character
line of a known record type. -/

theorem stepLine_known (st : PState) (k : Nat) (line : String) (c : Char) (defn : RecordDef)
    (hhead : strHead? line = some c) (hcs : pyIsSpace c = false)
    (hlen : line.length = 94)
    (hdef : lookupDef RECORD_DEFINITIONS c = some defn) :
    stepLine RECORD_DEFINITIONS st k line
      = dispatch st k (String.mk [c]) (decodeFields defn line) := by
  have hne : ((pyStrip line).length == 0) = false := by
    have := pyStrip_ne_nil_of_head line c hhead hcs
    simpa using this
  have hl : (line.length != 94) = false := by simp [hlen]
  unfold stepLine
  rw [hne, hl]
  simp only [Bool.false_and, Bool.false_eq_true, if_false]
  unfold dispatchDecoded parse_record
  rw [hhead]
  simp only [hdef]

theorem dispatch_one (st : PState) (k : Nat) (p : RecMap) :
    dispatch st k "1" p = { st with file_header := some p } := by
  simp [dispatch]

theorem dispatch_five_closed (st : PState) (k : Nat) (p : RecMap)
    (h : st.current_batch = none) :
    dispatch st k "5" p
      = { st with batches := st.batches ++ [⟨p, [], none⟩],
                  current_batch := some st.batches.length } := by
  simp [dispatch, h]

theorem dispatch_five_open (st : PState) (k : Nat) (p : RecMap)
    (h : st.current_batch.isSome = true) :
    dispatch st k "5" p
      = { st with errors := st.errors ++ [batchOpenMsg k],
                  batches := st.batches ++ [⟨p, [], none⟩],
                  current_batch := some st.batches.length } := by
  simp [dispatch, h]

theorem dispatch_six (st : PState) (k : Nat) (p : RecMap) (bi : Nat)
    (h : st.current_batch = some bi) :
    dispatch st k "6" p
      = { st with
            batches := modifyAt st.batches bi (fun b =>
              { b with entries := b.entries ++ [⟨p, []⟩] }),
            current_entry := some (bi, entriesLen st bi) } := by
  simp [dispatch, h]

theorem dispatch_seven (st : PState) (k : Nat) (p : RecMap) (bi ei : Nat) (s : String)
    (hce : st.current_entry = some (bi, ei))
    (hseq : recGet? p "entry_detail_sequence_number" = some (FieldValue.str s)) :
    dispatch st k "7" p
      = if s != "" && strEnds (traceOf (entryDetailAt st bi ei)) s then
          { st with batches := modifyAt st.batches bi (fun b =>
              { b with entries := modifyAt b.entries ei (fun e =>
                  { e with addenda := e.addenda ++ [p] }) }) }
        else addendaFallback st k p := by
  simp [dispatch, hce, hseq]

theorem dispatch_eight (st : PState) (k : Nat) (p : RecMap) (bi : Nat)
    (h : st.current_batch = some bi) :
    dispatch st k "8" p
      = { st with
            batches := modifyAt st.batches bi (fun b => { b with batch_control := some p }),
            current_batch := none,
            current_entry := none } := by
  simp [dispatch, h]

theorem dispatch_nine (st : PState) (k : Nat) (p : RecMap)
    (hraw : recGet? p "raw_line" = none) :
    dispatch st k "9" p = { st with file_control := some p } := by
  by_cases hbc : recHas p "batch_count" = true <;> simp [dispatch, hraw, hbc]

/-! Every loop iteration realizes one of the `StepEffect` shapes. -/

theorem addendaFallback_stepEffect (st : PState) (k : Nat) (p : RecMap) :
    StepEffect st (addendaFallback st k p) := by
  unfold addendaFallback
  split
  · rename_i bi hcb
    split
    · rename_i hne
      exact Or.inr (Or.inr (Or.inr (Or.inl
        ⟨bi, fun b => { b with entries := modifyAt b.entries (b.entries.length - 1) (fun e =>
            { e with addenda := e.addenda ++ [p] }) },
          fun b => ⟨rfl, rfl⟩, Or.inr hcb, rfl, rfl, rfl⟩)))
    · exact Or.inl ⟨rfl, rfl, rfl⟩
  · exact Or.inl ⟨rfl, rfl, rfl⟩

theorem dispatch_stepEffect (st : PState) (k : Nat) (tag : String) (p : RecMap) :
    StepEffect st (dispatch st k tag p) := by
  unfold dispatch
  by_cases h1 : (tag == "1") = true
  · rw [if_pos h1]; exact Or.inl ⟨rfl, rfl, rfl⟩
  rw [if_neg h1]
  by_cases h5 : (tag == "5") = true
  · rw [if_pos h5]
    have key : ∀ st1 : PState, st1.batches = st.batches → st1.current_entry = st.current_entry →
        StepEffect st { st1 with
          batches := st1.batches ++ [⟨p, [], none⟩],
          current_batch := some st1.batches.length } := by
      intro st1 hb1 he1
      exact Or.inr (Or.inl ⟨p, by rw [hb1], by rw [hb1], he1⟩)
    exact key _ (by split <;> rfl) (by split <;> rfl)
  rw [if_neg h5]
  by_cases h6 : (tag == "6") = true
  · rw [if_pos h6]
    split
    · exact Or.inl ⟨rfl, rfl, rfl⟩
    · rename_i bi hcb
      exact Or.inr (Or.inr (Or.inl
        ⟨bi, fun b => { b with entries := b.entries ++ [⟨p, []⟩] },
          fun b => ⟨rfl, rfl⟩, hcb, rfl, rfl, rfl⟩))
  rw [if_neg h6]
  by_cases h7 : (tag == "7") = true
  · rw [if_pos h7]
    split
    · exact Or.inl ⟨rfl, rfl, rfl⟩
    · rename_i bi ei hce
      split
      · rename_i s hseq
        split
        · rename_i hcond
          exact Or.inr (Or.inr (Or.inr (Or.inl
            ⟨bi, fun b => { b with entries := modifyAt b.entries ei (fun e =>
                { e with addenda := e.addenda ++ [p] }) },
              fun b => ⟨rfl, rfl⟩, Or.inl ⟨ei, hce⟩, rfl, rfl, rfl⟩)))
        · exact addendaFallback_stepEffect st k p
      · exact addendaFallback_stepEffect st k p
  rw [if_neg h7]
  by_cases h8 : (tag == "8") = true
  · rw [if_pos h8]
    split
    · exact Or.inl ⟨rfl, rfl, rfl⟩
    · rename_i bi hcb
      exact Or.inr (Or.inr (Or.inr (Or.inr
        ⟨bi, fun b => { b with batch_control := some p },
          fun b => ⟨rfl, rfl⟩, hcb, rfl, rfl, rfl⟩)))
  rw [if_neg h8]
  by_cases h9 : (tag == "9") = true
  · rw [if_pos h9]
    refine Or.inl ⟨?_, ?_, ?_⟩ <;> (split <;> try split) <;> rfl
  rw [if_neg h9]
  by_cases hf : (tag == "filler") = true
  · rw [if_pos hf]; exact Or.inl ⟨rfl, rfl, rfl⟩
  rw [if_neg hf]
  by_cases hu : (tag == "unknown") = true
  · rw [if_pos hu]; exact Or.inl ⟨rfl, rfl, rfl⟩
  rw [if_neg hu]
  exact Or.inl ⟨rfl, rfl, rfl⟩

theorem stepEffect_congr (st st0 st' : PState)
    (hb : st0.batches = st.batches) (hcb : st0.current_batch = st.current_batch)
    (hce : st0.current_entry = st.current_entry)
    (h : StepEffect st0 st') : StepEffect st st' := by
  have hel : ∀ bi, entriesLen st0 bi = entriesLen st bi := by
    intro bi
    unfold entriesLen
    rw [hb]
  rcases h with h | ⟨p, h⟩ | ⟨bi, f, hf, h⟩ | ⟨bi, f, hf, h⟩ | ⟨bi, f, hf, h⟩
  · exact Or.inl ⟨by rw [h.1, hb], by rw [h.2.1, hcb], by rw [h.2.2, hce]⟩
  · exact Or.inr (Or.inl ⟨p, by rw [h.1, hb], by rw [h.2.1, hb], by rw [h.2.2, hce]⟩)
  · exact Or.inr (Or.inr (Or.inl ⟨bi, f, hf, by rw [← hcb, h.1], by rw [h.2.1, hb],
      by rw [h.2.2.1, hcb], by rw [h.2.2.2, hel]⟩))
  · refine Or.inr (Or.inr (Or.inr (Or.inl ⟨bi, f, hf, ?_, by rw [h.2.1, hb],
      by rw [h.2.2.1, hcb], by rw [h.2.2.2, hce]⟩)))
    rcases h.1 with ⟨ei, hq⟩ | hq
    · exact Or.inl ⟨ei, by rw [← hce, hq]⟩
    · exact Or.inr (by rw [← hcb, hq])
  · exact Or.inr (Or.inr (Or.inr (Or.inr ⟨bi, f, hf, by rw [← hcb, h.1], by rw [h.2.1, hb],
      h.2.2.1, h.2.2.2⟩)))

theorem dispatchDecoded_stepEffect (reg : Registry) (st st0 : PState) (k : Nat) (line : String)
    (hb : st0.batches = st.batches) (hcb : st0.current_batch = st.current_batch)
    (hce : st0.current_entry = st.current_entry) :
    StepEffect st (dispatchDecoded reg st0 k line) := by
  unfold dispatchDecoded
  cases hpr : parse_record reg line with
  | none => exact Or.inl ⟨hb, hcb, hce⟩
  | some tp =>
    obtain ⟨tag, parsed⟩ := tp
    exact stepEffect_congr st st0 _ hb hcb hce (dispatch_stepEffect st0 k tag parsed)

theorem stepLine_stepEffect (reg : Registry) (st : PState) (k : Nat) (line : String) :
    StepEffect st (stepLine reg st k line) := by
  unfold stepLine
  by_cases hbl : ((pyStrip line).length == 0) = true
  · rw [if_pos hbl]; exact Or.inl ⟨rfl, rfl, rfl⟩
  rw [if_neg hbl]
  refine dispatchDecoded_stepEffect reg st _ k line ?_ ?_ ?_ <;> (split <;> try split) <;> rfl

theorem runFrom_stepEffects (reg : Registry) (P : PState → Prop)
    (hP : ∀ st st', StepEffect st st' → P st → P st')
    (st : PState) (k : Nat) (lines : List String) (h : P st) :
    P (runFrom reg st k lines) := by
  induction lines generalizing st k with
  | nil => exact h
  | cons a rest ih =>
    exact ih (stepLine reg st k a) (k + 1) (hP st _ (stepLine_stepEffect reg st k a) h)

/-! Invariants preserved by every loop iteration. -/

theorem get?_some_lt {α : Type} {l : List α} {n : Nat} {a : α} (h : l.get? n = some a) :
    n < l.length := by
  by_contra hn
  rw [List.get?_eq_none.mpr (Nat.le_of_not_lt hn)] at h
  exact Option.noConfusion h

theorem WF_step {st st' : PState} (h : StepEffect st st') (hwf : WF st) : WF st' := by
  obtain ⟨hcb, hce⟩ := hwf
  rcases h with ⟨hb, hc, he⟩ | ⟨p, hb, hc, he⟩ | ⟨bi, f, hf, hsome, hb, hc, he⟩ |
    ⟨bi, f, hf, hsome, hb, hc, he⟩ | ⟨bi, f, hf, hsome, hb, hc, he⟩
  · exact ⟨fun j hj => hb ▸ hcb j (hc ▸ hj), fun q hq => hb ▸ hce q (he ▸ hq)⟩
  · constructor
    · intro j hj
      rw [hc] at hj
      cases hj
      rw [hb]
      simp
    · intro q hq
      have := hce q (he ▸ hq)
      rw [hb]
      simp
      omega
  · constructor
    · intro j hj
      rw [hb, modifyAt_length]
      exact hcb j (hc ▸ hj)
    · intro q hq
      rw [he] at hq
      cases hq
      rw [hb, modifyAt_length]
      exact hcb bi hsome
  · constructor
    · intro j hj
      rw [hb, modifyAt_length]
      exact hcb j (hc ▸ hj)
    · intro q hq
      rw [hb, modifyAt_length]
      exact hce q (he ▸ hq)
  · constructor
    · intro j hj
      rw [hc] at hj
      exact Option.noConfusion hj
    · intro q hq
      rw [he] at hq
      exact Option.noConfusion hq

theorem frozen_step {m : Nat} {hdr : RecMap} {st st' : PState}
    (h : StepEffect st st') (hf : BatchFrozen m hdr st) : BatchFrozen m hdr st' := by
  obtain ⟨hget, hcb, hce⟩ := hf
  have hm : m < st.batches.length := get?_some_lt hget
  rcases h with ⟨hb, hc, he⟩ | ⟨p, hb, hc, he⟩ | ⟨bi, f, hff, hsome, hb, hc, he⟩ |
    ⟨bi, f, hff, hsome, hb, hc, he⟩ | ⟨bi, f, hff, hsome, hb, hc, he⟩
  · exact ⟨hb ▸ hget, fun j hj => hcb j (hc ▸ hj), fun q hq => hce q (he ▸ hq)⟩
  · refine ⟨?_, ?_, fun q hq => hce q (he ▸ hq)⟩
    · rw [hb, List.get?_append hm]
      exact hget
    · intro j hj
      rw [hc] at hj
      cases hj
      exact hm
  · have hbi : m < bi := hcb bi hsome
    refine ⟨?_, ?_, ?_⟩
    · rw [hb, modifyAt_get?_ne _ _ _ _ (Nat.ne_of_lt hbi)]
      exact hget
    · intro j hj
      exact hcb j (hc ▸ hj)
    · intro q hq
      rw [he] at hq
      cases hq
      exact Nat.ne_of_gt hbi
  · have hbi : bi ≠ m := by
      rcases hsome with ⟨ei, hq⟩ | hq
      · exact hce (bi, ei) hq
      · exact Nat.ne_of_gt (hcb bi hq)
    refine ⟨?_, ?_, ?_⟩
    · rw [hb, modifyAt_get?_ne _ _ _ _ (Ne.symm hbi)]
      exact hget
    · intro j hj
      exact hcb j (hc ▸ hj)
    · intro q hq
      exact hce q (he ▸ hq)
  · have hbi : m < bi := hcb bi hsome
    refine ⟨?_, ?_, ?_⟩
    · rw [hb, modifyAt_get?_ne _ _ _ _ (Nat.ne_of_lt hbi)]
      exact hget
    · intro j hj
      rw [hc] at hj
      exact Option.noConfusion hj
    · intro q hq
      rw [he] at hq
      exact Option.noConfusion hq

theorem headerAt_step {j : Nat} {hdr : RecMap} {st st' : PState}
    (h : StepEffect st st') (hh : HeaderAt j hdr st) : HeaderAt j hdr st' := by
  unfold HeaderAt at hh ⊢
  obtain ⟨b, hb, hbh⟩ : ∃ b, st.batches.get? j = some b ∧ b.header = hdr := by
    cases hq : st.batches.get? j with
    | none => rw [hq] at hh; exact Option.noConfusion hh
    | some b =>
      rw [hq] at hh
      exact ⟨b, rfl, by simpa using hh⟩
  have hj : j < st.batches.length := get?_some_lt hb
  have modCase : ∀ (bi : Nat) (f : Batch → Batch), (∀ x, (f x).header = x.header) →
      ((modifyAt st.batches bi f).get? j).map Batch.header = some hdr := by
    intro bi f hpres
    by_cases hji : j = bi
    · subst hji
      rw [modifyAt_get?_eq, hb]
      simp [hpres b, hbh]
    · rw [modifyAt_get?_ne _ _ _ _ hji, hb]
      simp [hbh]
  rcases h with ⟨hbs, _, _⟩ | ⟨p, hbs, _, _⟩ | ⟨bi, f, hff, _, hbs, _, _⟩ |
    ⟨bi, f, hff, _, hbs, _, _⟩ | ⟨bi, f, hff, _, hbs, _, _⟩
  · rw [hbs, hb]; simp [hbh]
  · rw [hbs, List.get?_append hj, hb]; simp [hbh]
  · rw [hbs]; exact modCase bi f (fun x => (hff x).1)
  · rw [hbs]; exact modCase bi f (fun x => (hff x).1)
  · rw [hbs]; exact modCase bi f (fun x => (hff x).1)

theorem runFrom_WF (reg : Registry) (st : PState) (k : Nat) (lines : List String)
    (h : WF st) : WF (runFrom reg st k lines) :=
  runFrom_stepEffects reg WF (fun _ _ he hp => WF_step he hp) st k lines h

theorem runFrom_frozen (reg : Registry) (m : Nat) (hdr : RecMap) (st : PState) (k : Nat)
    (lines : List String) (h : BatchFrozen m hdr st) :
    BatchFrozen m hdr (runFrom reg st k lines) :=
  runFrom_stepEffects reg (BatchFrozen m hdr) (fun _ _ he hp => frozen_step he hp) st k lines h

theorem runFrom_headerAt (reg : Registry) (j : Nat) (hdr : RecMap) (st : PState) (k : Nat)
    (lines : List String) (h : HeaderAt j hdr st) :
    HeaderAt j hdr (runFrom reg st k lines) :=
  runFrom_stepEffects reg (HeaderAt j hdr) (fun _ _ he hp => headerAt_step he hp) st k lines h

theorem WF_init : WF initState :=
  ⟨fun j hj => Option.noConfusion hj, fun q hq => Option.noConfusion hq⟩

theorem chunk94_nil : chunk94 [] = [] := by
  unfold chunk94
  simp

theorem mem_pyStripChars {x : Char} {l : List Char} (h : x ∈ pyStripChars l) : x ∈ l := by
  unfold pyStripChars at h
  rw [List.mem_reverse] at h
  have h1 := (List.dropWhile_sublist pyIsSpace).subset h
  rw [List.mem_reverse] at h1
  exact (List.dropWhile_sublist pyIsSpace).subset h1

theorem allNine_pyStrip {line : String} (h : allNine line = true) :
    allNine (pyStrip line) = true := by
  rw [allNine, List.all_eq_true] at h ⊢
  intro x hx
  exact h x (mem_pyStripChars hx)

theorem startsWithNine_of_allNine {line : String} (hne : (pyStrip line).length ≠ 0)
    (h : allNine line = true) : startsWithNine line = true := by
  cases hd : line.data with
  | nil =>
    exfalso
    apply hne
    simp [pyStrip, pyStripChars, hd, String.length]
  | cons a t =>
    rw [allNine, hd, List.all_cons, Bool.and_eq_true, decide_eq_true_eq] at h
    rw [startsWithNine, hd, h.1]
    simp [listStarts]

/-- The '5' loop iteration: one structural error exactly when a batch is
still open, a fresh batch appended and made current, and `current_entry`
(together with every other field) untouched. -/
theorem stepLine_five (st : PState) (k : Nat) (line : String)
    (hhead : strHead? line = some '5') (hlen : line.length = 94) :
    stepLine RECORD_DEFINITIONS st k line
      = { st with
            errors := st.errors ++ (if st.current_batch.isSome then [batchOpenMsg k] else []),
            batches := st.batches ++ [⟨decodeFields defn5 line, [], none⟩],
            current_batch := some st.batches.length } := by
  rw [stepLine_known st k line '5' defn5 hhead rfl hlen rfl,
      show String.mk ['5'] = "5" from rfl]
  by_cases hb : st.current_batch.isSome = true
  · rw [dispatch_five_open st k _ hb, hb]
    simp
  · have hnone : st.current_batch = none := Option.not_isSome_iff_eq_none.mp hb
    rw [dispatch_five_closed st k _ hnone, hnone]
    simp

theorem defnNames_nodup (c : Char) (defn : RecordDef)
    (hdef : lookupDef RECORD_DEFINITIONS c = some defn) :
    (defn.map FieldSpec.name).Nodup := by
  unfold lookupDef at hdef
  cases hf : List.find? (fun p => p.1 == c) RECORD_DEFINITIONS with
  | none => rw [hf] at hdef; exact Option.noConfusion hdef
  | some q =>
    rw [hf] at hdef
    have hq : q ∈ RECORD_DEFINITIONS := List.mem_of_find?_eq_some hf
    have hqd : q.2 = defn := by simpa using hdef
    have hq' : q = ('1', defn1) ∨ q = ('5', defn5) ∨ q = ('6', defn6) ∨ q = ('7', defn7) ∨
        q = ('8', defn8) ∨ q = ('9', defn9) := by
      simpa [RECORD_DEFINITIONS] using hq
    rw [← hqd]
    rcases hq' with h | h | h | h | h | h <;> rw [h] <;> decide

theorem recGet?_decodeFields (defn : RecordDef) (line : String) (f : FieldSpec)
    (hf : f ∈ defn) (hnd : (defn.map FieldSpec.name).Nodup) :
    recGet? (decodeFields defn line) f.name
      = some (decodeFieldValue f.name
          (pyStrip (pySlice line f.start (min f.stop line.length)))) := by
  induction defn with
  | nil => cases hf
  | cons g rest ih =>
    rw [List.map_cons, List.nodup_cons] at hnd
    rcases List.mem_cons.mp hf with heq | hmem
    · subst heq
      simp [recGet?, decodeFields, List.find?]
    · have hne : (g.name == f.name) = false := by
        rw [beq_eq_false_iff_ne]
        intro hcontra
        exact hnd.1 (hcontra ▸ List.mem_map_of_mem FieldSpec.name hmem)
      have := ih hmem hnd.2
      simpa [recGet?, decodeFields, List.find?, hne] using this

theorem decodeFieldValue_numeric (name : String) (hnum : name ∈ numericFields) (v : String) :
    decodeFieldValue name v
      = if v = "" then FieldValue.int 0
        else
          match pyInt? v with
          | some n => FieldValue.int n
          | none => FieldValue.str v := by
  fin_cases hnum <;> rfl

/-! Claim theorems. -/

/-- C1: the claim says a non-blank line whose trimmed content is entirely
'9' is classified as filler (appended to `other_records`), never errors,
and never touches the `file_control` singleton.  The code disagrees: since
'9' has an entry in `RECORD_DEFINITIONS`, the filler branches in
`parse_record` and in the '9' dispatch are unreachable, so a full 94-column
all-'9' filler line is decoded through the File Control schema and
overwrites `file_control`, and nothing is appended to `other_records`
(no error is produced, as claimed).  This contradicts the code's own
comments ("Common filler", "other_records ... For fillers"), whose intent
the claim records, so the claim is a code bug, exhibited here by
evaluating the parser on the single filler line. -/
theorem C1_filler_clobbers_file_control :
    parse_ach_file_content RECORD_DEFINITIONS (AchContent.list [PyItem.str c1nines])
      = Except.ok ⟨none, [], some (decodeFields defn9 c1nines), [], []⟩ := rfl

/-- C4 counterexample: the claim says that whenever a '7' record is
processed while a current entry exists and the addenda's
`entry_detail_sequence_number` is a suffix of that entry's `trace_number`,
the addenda is appended to that entry and no error is emitted.  In the run
below the fourth line is a '7' whose sequence field is blank — the empty
string is a suffix of every trace number — and a current entry exists (the
entry of the first batch; the second '5' does not clear it).  Yet the code
treats the empty (falsy) sequence as a non-match, the fallback finds the
open second batch empty, the addenda is attached nowhere, and an
association error is emitted. -/
theorem C4_empty_suffix_counterexample :
    (runFrom RECORD_DEFINITIONS initState 1 [c4h1, c4e1, c4h2, c4sp]).batches.get? 0
        = some ⟨decodeFields defn5 c4h1, [⟨decodeFields defn6 c4e1, []⟩], none⟩ ∧
    (runFrom RECORD_DEFINITIONS initState 1 [c4h1, c4e1, c4h2, c4sp]).errors
        = [batchOpenMsg 3, associateMsg 4 (decodeFields defn7 c4sp)] :=
  ⟨rfl, rfl⟩

/-- C5 counterexample: the claim says that after the assembler processes
any '5' (Batch Header) record the `current_entry` context is absent.  In
the three-line run below the last processed record is a '5', yet
`current_entry` still points at the entry of the *first* batch: the '5'
branch of the source never resets `current_entry`. -/
theorem C5_entry_survives_batch_header :
    (runFrom RECORD_DEFINITIONS initState 1 [c5h1, c5e1, c5h2]).current_entry
      = some ((0 : Nat), (0 : Nat)) := rfl

/-- C6 counterexample: the claim says a non-94-character non-blank line is
excused from the LengthError exactly when its trimmed content is entirely
'9'.  The line `" 9"` trims to `"9"` (entirely '9's), but the code's excuse
additionally requires `line.startswith("9")`, which fails on the leading
blank, so a LengthError *is* recorded (and the line then decodes as an
unknown type). -/
theorem C6_trimmed_filler_counterexample :
    parse_ach_file_content RECORD_DEFINITIONS (AchContent.list [PyItem.str " 9"])
      = Except.ok ⟨none, [], none,
          ["Line 1: Expected 94 characters, got 2. Content: \x279\x27",
           "Line 1: Encountered an unknown record type. Data: \x7b\x27raw_line\x27: \x279\x27\x7d"],
          [("unknown", [("raw_line", FieldValue.str "9")])]⟩ := rfl

/-- C7 counterexample: the claim says the core entry point returns exactly
one diagnostic on a completely empty input string.  The core returns zero
diagnostics: the empty-input diagnostic lives in the file-reading
collaborator `parse_ach_lob_file`, not in `parse_ach_file_content`. -/
theorem C7_empty_input_counterexample :
    (parse_ach_file_content RECORD_DEFINITIONS (AchContent.str "")).map
        (fun r => r.errors.length) = Except.ok 0 ∧ (0 : Nat) ≠ 1 := by
  constructor
  · show (let lines := if ("".data.contains '\n') = true then pySplitlines "" else chunk94 "".data
          Except.ok (toResult (runFrom RECORD_DEFINITIONS initState 1 lines))).map
        (fun r => r.errors.length) = Except.ok 0
    rw [show ("".data.contains '\n') = false from rfl]
    simp only [Bool.false_eq_true, if_false]
    rw [chunk94_nil]
    rfl
  · decide

/-- C7 amended: `parse_ach_file_content` on the completely empty string
returns a result with *no* diagnostics and no batches, no file header and
no file control; the single empty-input diagnostic is produced by the
collaborator `parse_ach_lob_file` before the core is ever called. -/
theorem C7_empty_input_result :
    parse_ach_file_content RECORD_DEFINITIONS (AchContent.str "")
      = Except.ok ⟨none, [], none, [], []⟩ := by
  show (let lines := if ("".data.contains '\n') = true then pySplitlines "" else chunk94 "".data
        Except.ok (toResult (runFrom RECORD_DEFINITIONS initState 1 lines)))
      = Except.ok ⟨none, [], none, [], []⟩
  rw [show ("".data.contains '\n') = false from rfl]
  simp only [Bool.false_eq_true, if_false]
  rw [chunk94_nil]
  rfl

/-- C8: for every non-empty line of a known record type and every field of
its schema declared numeric, the decoder produces: the integer 0 when the
trimmed slice is empty; the parsed base-10 integer when it parses; and the
trimmed text unchanged otherwise.  The decoder returns the tagged field
map and has no error channel at all — in particular the fallback case
raises nothing (Python swallows the `ValueError`). -/
theorem C8_numeric_field_decode (line : String) (c : Char) (defn : RecordDef) (f : FieldSpec)
    (hhead : strHead? line = some c)
    (hdef : lookupDef RECORD_DEFINITIONS c = some defn)
    (hf : f ∈ defn) (hnum : f.name ∈ numericFields) :
    parse_record RECORD_DEFINITIONS line = some (String.mk [c], decodeFields defn line) ∧
    recGet? (decodeFields defn line) f.name
      = some (if pyStrip (pySlice line f.start (min f.stop line.length)) = ""
              then FieldValue.int 0
              else
                match pyInt? (pyStrip (pySlice line f.start (min f.stop line.length))) with
                | some n => FieldValue.int n
                | none => FieldValue.str (pyStrip (pySlice line f.start (min f.stop line.length)))) := by
  constructor
  · unfold parse_record
    rw [hhead]
    simp only [hdef]
  · rw [recGet?_decodeFields defn line f hf (defnNames_nodup c defn hdef),
        decodeFieldValue_numeric f.name hnum]

/-- C8 witness: the `amount` field of a concrete entry-detail line holding
`0000100000` in columns [29,39) decodes to the integer 100000. -/
theorem C8_numeric_field_decode_witness :
    parse_record RECORD_DEFINITIONS c8line = some ("6", decodeFields defn6 c8line) ∧
    recGet? (decodeFields defn6 c8line) "amount" = some (FieldValue.int 100000) := by
  have h := C8_numeric_field_decode c8line '6' defn6 ⟨"amount", 29, 39, "Amount (cents)"⟩
    rfl rfl (by decide) (by decide)
  exact ⟨h.1, by rw [h.2]; rfl⟩

/-- C9: re-running the parser on identical content yields the same
`ParseResult`, and no call mutates the process-wide schema registry: the
registry threaded through a first call comes back exactly
`RECORD_DEFINITIONS`, and a second call starting from that returned
registry produces the identical result.  (The source only ever reads the
module-level `RECORD_DEFINITIONS`; the embedding reflects this by
returning the registry unchanged.) -/
theorem C9_idempotent_no_global_mutation (c : AchContent) :
    (parse_ach_file_content_env RECORD_DEFINITIONS c).2 = RECORD_DEFINITIONS ∧
    (parse_ach_file_content_env (parse_ach_file_content_env RECORD_DEFINITIONS c).2 c).1
      = (parse_ach_file_content_env RECORD_DEFINITIONS c).1 :=
  ⟨rfl, rfl⟩

/-- C10 counterexample: the claim quantifies over every input that is
neither a string nor a *list of strings*.  A Python list containing a
non-string is such an input, but instead of returning the
invalid-content-type diagnostic the code enters the list branch and raises
`AttributeError` at `line.strip()`. -/
theorem C10_list_of_non_strings_raises :
    parse_ach_file_content RECORD_DEFINITIONS (AchContent.list [PyItem.nonStr])
      = Except.error "AttributeError" := rfl

/-- C2: for every six-line well-formed input File Header, Batch Header,
Entry Detail, Addenda, Batch Control, File Control — each line 94
characters of its record type, with the addenda's
`entry_detail_sequence_number` (columns [87,94), trimmed) a suffix of the
entry's `trace_number` (columns [79,94), trimmed) — the parser returns no
errors, one batch containing one entry carrying one addenda, a batch
control, and both the file header and the file control set. -/
theorem C2_round_trip (l1 l2 l3 l4 l5 l6 : String)
    (h1 : strHead? l1 = some '1') (hl1 : l1.length = 94)
    (h2 : strHead? l2 = some '5') (hl2 : l2.length = 94)
    (h3 : strHead? l3 = some '6') (hl3 : l3.length = 94)
    (h4 : strHead? l4 = some '7') (hl4 : l4.length = 94)
    (h5 : strHead? l5 = some '8') (hl5 : l5.length = 94)
    (h6 : strHead? l6 = some '9') (hl6 : l6.length = 94)
    (hsuf : strEnds (pyStrip (pySlice l3 79 94)) (pyStrip (pySlice l4 87 94)) = true) :
    parse_ach_file_content RECORD_DEFINITIONS
        (AchContent.list [PyItem.str l1, PyItem.str l2, PyItem.str l3,
                          PyItem.str l4, PyItem.str l5, PyItem.str l6])
      = Except.ok ⟨some (decodeFields defn1 l1),
          [⟨decodeFields defn5 l2,
            [⟨decodeFields defn6 l3, [decodeFields defn7 l4]⟩],
            some (decodeFields defn8 l5)⟩],
          some (decodeFields defn9 l6), [], []⟩ := by
  have e1 : stepLine RECORD_DEFINITIONS initState 1 l1
      = (⟨some (decodeFields defn1 l1), [], none, [], [], none, none⟩ : PState) := by
    rw [stepLine_known initState 1 l1 '1' defn1 h1 rfl hl1 rfl,
        show String.mk ['1'] = "1" from rfl, dispatch_one]
    rfl
  have e2 : stepLine RECORD_DEFINITIONS
        (⟨some (decodeFields defn1 l1), [], none, [], [], none, none⟩ : PState) 2 l2
      = (⟨some (decodeFields defn1 l1), [⟨decodeFields defn5 l2, [], none⟩],
          none, [], [], some 0, none⟩ : PState) := by
    rw [stepLine_known _ 2 l2 '5' defn5 h2 rfl hl2 rfl,
        show String.mk ['5'] = "5" from rfl, dispatch_five_closed _ 2 _ rfl]
    rfl
  have e3 : stepLine RECORD_DEFINITIONS
        (⟨some (decodeFields defn1 l1), [⟨decodeFields defn5 l2, [], none⟩],
          none, [], [], some 0, none⟩ : PState) 3 l3
      = (⟨some (decodeFields defn1 l1),
          [⟨decodeFields defn5 l2, [⟨decodeFields defn6 l3, []⟩], none⟩],
          none, [], [], some 0, some (0, 0)⟩ : PState) := by
    rw [stepLine_known _ 3 l3 '6' defn6 h3 rfl hl3 rfl,
        show String.mk ['6'] = "6" from rfl, dispatch_six _ 3 _ 0 rfl]
    rfl
  have e4 : stepLine RECORD_DEFINITIONS
        (⟨some (decodeFields defn1 l1),
          [⟨decodeFields defn5 l2, [⟨decodeFields defn6 l3, []⟩], none⟩],
          none, [], [], some 0, some (0, 0)⟩ : PState) 4 l4
      = (⟨some (decodeFields defn1 l1),
          [⟨decodeFields defn5 l2, [⟨decodeFields defn6 l3, [decodeFields defn7 l4]⟩], none⟩],
          none, [], [], some 0, some (0, 0)⟩ : PState) := by
    have hseq4 : recGet? (decodeFields defn7 l4) "entry_detail_sequence_number"
        = some (FieldValue.str (pyStrip (pySlice l4 87 94))) := by
      have h0 : recGet? (decodeFields defn7 l4) "entry_detail_sequence_number"
          = some (FieldValue.str (pyStrip (pySlice l4 87 (min 94 l4.length)))) := rfl
      rw [show min 94 l4.length = 94 from by rw [hl4, min_self]] at h0
      exact h0
    rw [stepLine_known _ 4 l4 '7' defn7 h4 rfl hl4 rfl,
        show String.mk ['7'] = "7" from rfl,
        dispatch_seven _ 4 _ 0 0 _ rfl hseq4]
    by_cases hs : pyStrip (pySlice l4 87 94) = ""
    · rw [hs]
      rfl
    · have htr : traceOf (entryDetailAt
          (⟨some (decodeFields defn1 l1),
            [⟨decodeFields defn5 l2, [⟨decodeFields defn6 l3, []⟩], none⟩],
            none, [], [], some 0, some (0, 0)⟩ : PState) 0 0)
          = pyStrip (pySlice l3 79 94) := by
        have h0 : traceOf (entryDetailAt
            (⟨some (decodeFields defn1 l1),
              [⟨decodeFields defn5 l2, [⟨decodeFields defn6 l3, []⟩], none⟩],
              none, [], [], some 0, some (0, 0)⟩ : PState) 0 0)
            = pyStrip (pySlice l3 79 (min 94 l3.length)) := rfl
        rw [show min 94 l3.length = 94 from by rw [hl3, min_self]] at h0
        exact h0
      rw [if_pos (by rw [Bool.and_eq_true, htr]; exact ⟨bne_iff_ne.mpr hs, hsuf⟩)]
      rfl
  have e5 : stepLine RECORD_DEFINITIONS
        (⟨some (decodeFields defn1 l1),
          [⟨decodeFields defn5 l2, [⟨decodeFields defn6 l3, [decodeFields defn7 l4]⟩], none⟩],
          none, [], [], some 0, some (0, 0)⟩ : PState) 5 l5
      = (⟨some (decodeFields defn1 l1),
          [⟨decodeFields defn5 l2, [⟨decodeFields defn6 l3, [decodeFields defn7 l4]⟩],
            some (decodeFields defn8 l5)⟩],
          none, [], [], none, none⟩ : PState) := by
    rw [stepLine_known _ 5 l5 '8' defn8 h5 rfl hl5 rfl,
        show String.mk ['8'] = "8" from rfl, dispatch_eight _ 5 _ 0 rfl]
    rfl
  have e6 : stepLine RECORD_DEFINITIONS
        (⟨some (decodeFields defn1 l1),
          [⟨decodeFields defn5 l2, [⟨decodeFields defn6 l3, [decodeFields defn7 l4]⟩],
            some (decodeFields defn8 l5)⟩],
          none, [], [], none, none⟩ : PState) 6 l6
      = (⟨some (decodeFields defn1 l1),
          [⟨decodeFields defn5 l2, [⟨decodeFields defn6 l3, [decodeFields defn7 l4]⟩],
            some (decodeFields defn8 l5)⟩],
          some (decodeFields defn9 l6), [], [], none, none⟩ : PState) := by
    rw [stepLine_known _ 6 l6 '9' defn9 h6 rfl hl6 rfl,
        show String.mk ['9'] = "9" from rfl, dispatch_nine _ 6 (decodeFields defn9 l6) rfl]
  have hrun : runFrom RECORD_DEFINITIONS initState 1 [l1, l2, l3, l4, l5, l6]
      = (⟨some (decodeFields defn1 l1),
          [⟨decodeFields defn5 l2, [⟨decodeFields defn6 l3, [decodeFields defn7 l4]⟩],
            some (decodeFields defn8 l5)⟩],
          some (decodeFields defn9 l6), [], [], none, none⟩ : PState) := by
    show stepLine RECORD_DEFINITIONS (stepLine RECORD_DEFINITIONS (stepLine RECORD_DEFINITIONS
        (stepLine RECORD_DEFINITIONS (stepLine RECORD_DEFINITIONS
          (stepLine RECORD_DEFINITIONS initState 1 l1) 2 l2) 3 l3) 4 l4) 5 l5) 6 l6 = _
    rw [e1, e2, e3, e4, e5, e6]
  show Except.ok (toResult (runFrom RECORD_DEFINITIONS initState 1 [l1, l2, l3, l4, l5, l6])) = _
  rw [hrun]
  rfl

/-- C2 witness: a concrete six-line file (blank-padded fields, entry trace
`000000000000001`, addenda sequence `0000001`) parses to the expected
one-batch one-entry one-addenda result with no errors. -/
theorem C2_round_trip_witness :
    parse_ach_file_content RECORD_DEFINITIONS
        (AchContent.list [PyItem.str c2l1, PyItem.str c2l2, PyItem.str c2l3,
                          PyItem.str c2l4, PyItem.str c2l5, PyItem.str c2l6])
      = Except.ok ⟨some (decodeFields defn1 c2l1),
          [⟨decodeFields defn5 c2l2,
            [⟨decodeFields defn6 c2l3, [decodeFields defn7 c2l4]⟩],
            some (decodeFields defn8 c2l5)⟩],
          some (decodeFields defn9 c2l6), [], []⟩ :=
  C2_round_trip c2l1 c2l2 c2l3 c2l4 c2l5 c2l6 rfl rfl rfl rfl rfl rfl
    rfl rfl rfl rfl rfl rfl (by decide)

/-- C3: whenever a batch header ('5') line is immediately followed by a
second batch header with no intervening batch control — after an arbitrary
prefix and followed by an arbitrary suffix of further lines — processing
the second header emits exactly one structural error ("previous batch not
closed"), both batches appear in the batches list at consecutive positions
in file order, and the first of the two remains in the final output with
no `batch_control` (and no entries): once superseded, nothing can ever
reach it again. -/
theorem C3_double_batch_header (pre post : List String) (l1 l2 : String)
    (hh1 : strHead? l1 = some '5') (hl1 : l1.length = 94)
    (hh2 : strHead? l2 = some '5') (hl2 : l2.length = 94) :
    ((runFrom RECORD_DEFINITIONS initState 1 (pre ++ [l1, l2])).errors
      = (runFrom RECORD_DEFINITIONS initState 1 (pre ++ [l1])).errors
          ++ [batchOpenMsg (pre.length + 2)]) ∧
    ((runFrom RECORD_DEFINITIONS initState 1 (pre ++ [l1, l2] ++ post)).batches.get?
        (runFrom RECORD_DEFINITIONS initState 1 pre).batches.length
      = some ⟨decodeFields defn5 l1, [], none⟩) ∧
    (((runFrom RECORD_DEFINITIONS initState 1 (pre ++ [l1, l2] ++ post)).batches.get?
        ((runFrom RECORD_DEFINITIONS initState 1 pre).batches.length + 1)).map Batch.header
      = some (decodeFields defn5 l2)) := by
  have hwf0 : WF (runFrom RECORD_DEFINITIONS initState 1 pre) :=
    runFrom_WF _ _ _ _ WF_init
  have e1 := stepLine_five (runFrom RECORD_DEFINITIONS initState 1 pre)
    (1 + pre.length) l1 hh1 hl1
  have e2 := stepLine_five (stepLine RECORD_DEFINITIONS
    (runFrom RECORD_DEFINITIONS initState 1 pre) (1 + pre.length) l1)
    (1 + pre.length + 1) l2 hh2 hl2
  have hd1 : runFrom RECORD_DEFINITIONS initState 1 (pre ++ [l1])
      = stepLine RECORD_DEFINITIONS (runFrom RECORD_DEFINITIONS initState 1 pre)
          (1 + pre.length) l1 := by
    rw [runFrom_append]
    rfl
  have hd2 : runFrom RECORD_DEFINITIONS initState 1 (pre ++ [l1, l2])
      = stepLine RECORD_DEFINITIONS (stepLine RECORD_DEFINITIONS
          (runFrom RECORD_DEFINITIONS initState 1 pre) (1 + pre.length) l1)
          (1 + pre.length + 1) l2 := by
    rw [runFrom_append]
    rfl
  have hd3 : runFrom RECORD_DEFINITIONS initState 1 (pre ++ [l1, l2] ++ post)
      = runFrom RECORD_DEFINITIONS (stepLine RECORD_DEFINITIONS (stepLine RECORD_DEFINITIONS
          (runFrom RECORD_DEFINITIONS initState 1 pre) (1 + pre.length) l1)
          (1 + pre.length + 1) l2) (1 + (pre ++ [l1, l2]).length) post := by
    rw [runFrom_append, hd2]
  have hb2 : (stepLine RECORD_DEFINITIONS (stepLine RECORD_DEFINITIONS
        (runFrom RECORD_DEFINITIONS initState 1 pre) (1 + pre.length) l1)
        (1 + pre.length + 1) l2).batches
      = (runFrom RECORD_DEFINITIONS initState 1 pre).batches
          ++ [⟨decodeFields defn5 l1, [], none⟩] ++ [⟨decodeFields defn5 l2, [], none⟩] := by
    rw [e2, e1]
  have hcb2 : (stepLine RECORD_DEFINITIONS (stepLine RECORD_DEFINITIONS
        (runFrom RECORD_DEFINITIONS initState 1 pre) (1 + pre.length) l1)
        (1 + pre.length + 1) l2).current_batch
      = some ((runFrom RECORD_DEFINITIONS initState 1 pre).batches.length + 1) := by
    rw [e2, e1]
    simp
  have hce2 : (stepLine RECORD_DEFINITIONS (stepLine RECORD_DEFINITIONS
        (runFrom RECORD_DEFINITIONS initState 1 pre) (1 + pre.length) l1)
        (1 + pre.length + 1) l2).current_entry
      = (runFrom RECORD_DEFINITIONS initState 1 pre).current_entry := by
    rw [e2, e1]
  refine ⟨?_, ?_, ?_⟩
  · have hk : 1 + pre.length + 1 = pre.length + 2 := by omega
    rw [hd2, hd1, e2, e1]
    simp [hk]
  · have hfroz : BatchFrozen (runFrom RECORD_DEFINITIONS initState 1 pre).batches.length
        (decodeFields defn5 l1)
        (stepLine RECORD_DEFINITIONS (stepLine RECORD_DEFINITIONS
          (runFrom RECORD_DEFINITIONS initState 1 pre) (1 + pre.length) l1)
          (1 + pre.length + 1) l2) := by
      refine ⟨?_, ?_, ?_⟩
      · have hlt : (runFrom RECORD_DEFINITIONS initState 1 pre).batches.length
            < ((runFrom RECORD_DEFINITIONS initState 1 pre).batches
                ++ [(⟨decodeFields defn5 l1, [], none⟩ : Batch)]).length := by
          simp
        rw [hb2, List.get?_append hlt, List.get?_concat_length]
      · intro j hj
        rw [hcb2] at hj
        cases hj
        omega
      · intro q hq
        rw [hce2] at hq
        have := hwf0.2 q hq
        omega
    rw [hd3]
    exact (runFrom_frozen _ _ _ _ _ post hfroz).1
  · have hhd : HeaderAt ((runFrom RECORD_DEFINITIONS initState 1 pre).batches.length + 1)
        (decodeFields defn5 l2)
        (stepLine RECORD_DEFINITIONS (stepLine RECORD_DEFINITIONS
          (runFrom RECORD_DEFINITIONS initState 1 pre) (1 + pre.length) l1)
          (1 + pre.length + 1) l2) := by
      unfold HeaderAt
      rw [hb2]
      have hlen : ((runFrom RECORD_DEFINITIONS initState 1 pre).batches
          ++ [(⟨decodeFields defn5 l1, [], none⟩ : Batch)]).length
          = (runFrom RECORD_DEFINITIONS initState 1 pre).batches.length + 1 := by
        simp
      rw [← hlen, List.get?_concat_length]
      rfl
    rw [hd3]
    exact runFrom_headerAt _ _ _ _ _ post hhd

/-- C3 witness: the two-line input of two bare batch headers produces one
structural error, two batches in order, and no control on the first. -/
theorem C3_double_batch_header_witness :
    ((runFrom RECORD_DEFINITIONS initState 1 [c3l1, c3l2]).errors
      = (runFrom RECORD_DEFINITIONS initState 1 [c3l1]).errors ++ [batchOpenMsg 2]) ∧
    ((runFrom RECORD_DEFINITIONS initState 1 [c3l1, c3l2]).batches.get? 0
      = some ⟨decodeFields defn5 c3l1, [], none⟩) ∧
    (((runFrom RECORD_DEFINITIONS initState 1 [c3l1, c3l2]).batches.get? 1).map Batch.header
      = some (decodeFields defn5 c3l2)) :=
  C3_double_batch_header [] [] c3l1 c3l2 rfl rfl rfl rfl

/-- C4 amended: for every '7' record processed while a current entry
exists, if the addenda's `entry_detail_sequence_number` is *non-empty* and
a suffix of the current entry's `trace_number`, the addenda is appended to
that entry's addenda list; otherwise (empty or non-matching sequence), if
the current batch's entries list is non-empty, it is appended to the last
entry of the current batch; in both of these cases no error is emitted and
nothing else in the state changes.  (The original claim admitted the empty
sequence number into the first case; Python's truthiness test sends it to
the fallback instead, which the counterexample exhibits.) -/
theorem C4_addenda_association (st : PState) (k : Nat) (line : String) (bi ei : Nat)
    (hce : st.current_entry = some (bi, ei))
    (hhead : strHead? line = some '7') (hlen : line.length = 94) :
    (pyStrip (pySlice line 87 94) ≠ "" ∧
        strEnds (traceOf (entryDetailAt st bi ei)) (pyStrip (pySlice line 87 94)) = true →
      stepLine RECORD_DEFINITIONS st k line
        = { st with batches := modifyAt st.batches bi (fun b =>
            { b with entries := modifyAt b.entries ei (fun e =>
                { e with addenda := e.addenda ++ [decodeFields defn7 line] }) }) }) ∧
    (¬(pyStrip (pySlice line 87 94) ≠ "" ∧
        strEnds (traceOf (entryDetailAt st bi ei)) (pyStrip (pySlice line 87 94)) = true) →
      ∀ cb, st.current_batch = some cb → entriesLen st cb ≠ 0 →
      stepLine RECORD_DEFINITIONS st k line
        = { st with batches := modifyAt st.batches cb (fun b =>
            { b with entries := modifyAt b.entries (b.entries.length - 1) (fun e =>
                { e with addenda := e.addenda ++ [decodeFields defn7 line] }) }) }) := by
  have hmin : min 94 line.length = 94 := by rw [hlen, min_self]
  have hseq : recGet? (decodeFields defn7 line) "entry_detail_sequence_number"
      = some (FieldValue.str (pyStrip (pySlice line 87 94))) := by
    have h0 : recGet? (decodeFields defn7 line) "entry_detail_sequence_number"
        = some (FieldValue.str (pyStrip (pySlice line 87 (min 94 line.length)))) := rfl
    rw [hmin] at h0
    exact h0
  constructor
  · intro hcond
    rw [stepLine_known st k line '7' defn7 hhead rfl hlen rfl,
        show String.mk ['7'] = "7" from rfl,
        dispatch_seven st k _ bi ei _ hce hseq,
        if_pos (by rw [Bool.and_eq_true]; exact ⟨bne_iff_ne.mpr hcond.1, hcond.2⟩)]
  · intro hcond cb hcb hne
    rw [stepLine_known st k line '7' defn7 hhead rfl hlen rfl,
        show String.mk ['7'] = "7" from rfl,
        dispatch_seven st k _ bi ei _ hce hseq]
    have hfalse : ¬(pyStrip (pySlice line 87 94) != "" &&
        strEnds (traceOf (entryDetailAt st bi ei)) (pyStrip (pySlice line 87 94))) = true := by
      intro hcontra
      rw [Bool.and_eq_true] at hcontra
      exact hcond ⟨bne_iff_ne.mp hcontra.1, hcontra.2⟩
    rw [if_neg hfalse]
    unfold addendaFallback
    simp only [hcb]
    rw [if_pos (bne_iff_ne.mpr hne)]

/-- C4 witness: in a state holding one batch with one entry, a matching
non-empty sequence number attaches the addenda to the current entry and
produces no error. -/
theorem C4_addenda_association_witness :
    stepLine RECORD_DEFINITIONS (runFrom RECORD_DEFINITIONS initState 1 [c4h1, c4e1]) 3 c4match
      = { runFrom RECORD_DEFINITIONS initState 1 [c4h1, c4e1] with
          batches := modifyAt (runFrom RECORD_DEFINITIONS initState 1 [c4h1, c4e1]).batches 0
            (fun b => { b with entries := modifyAt b.entries 0 (fun e =>
                { e with addenda := e.addenda ++ [decodeFields defn7 c4match] }) }) } :=
  (C4_addenda_association _ 3 c4match 0 0 rfl rfl rfl).1 ⟨by decide, by decide⟩

/-- C5 amended: after the assembler processes a '5' (Batch Header) record,
a new batch is appended to `batches` and becomes `currentBatch`, but
`currentEntry` is *not* cleared: it keeps whatever value it had, so an
entry of an earlier batch can remain the current entry. -/
theorem C5_batch_header_keeps_entry (st : PState) (k : Nat) (line : String)
    (hhead : strHead? line = some '5') (hlen : line.length = 94) :
    stepLine RECORD_DEFINITIONS st k line
      = { st with
            errors := st.errors ++ (if st.current_batch.isSome then [batchOpenMsg k] else []),
            batches := st.batches ++ [⟨decodeFields defn5 line, [], none⟩],
            current_batch := some st.batches.length } ∧
    (stepLine RECORD_DEFINITIONS st k line).current_entry = st.current_entry := by
  have h := stepLine_five st k line hhead hlen
  exact ⟨h, by rw [h]⟩

/-- C5 witness: concretely, after a batch, an entry and a second batch
header, the second '5' leaves the stale current entry in place. -/
theorem C5_batch_header_keeps_entry_witness :
    (stepLine RECORD_DEFINITIONS (runFrom RECORD_DEFINITIONS initState 1 [c5h1, c5e1]) 3
        c5h2).current_entry
      = (runFrom RECORD_DEFINITIONS initState 1 [c5h1, c5e1]).current_entry :=
  (C5_batch_header_keeps_entry _ 3 c5h2 rfl rfl).2

/-- C6 amended: for every non-blank line whose length is not 94, a
LengthError is recorded if and only if the line does *not* both start with
'9' and trim to a string consisting entirely of '9' — trimming alone is
not enough, the first character must itself be '9' — and in both cases the
line is still forwarded to decoding and assembly (`dispatchDecoded`). -/
theorem C6_length_check (st : PState) (k : Nat) (line : String)
    (hnb : (pyStrip line).length ≠ 0) (hlen : line.length ≠ 94) :
    stepLine RECORD_DEFINITIONS st k line
      = dispatchDecoded RECORD_DEFINITIONS
          (if startsWithNine line && allNine (pyStrip line) then st
           else { st with errors := st.errors ++ [lengthMsg k line] }) k line := by
  by_cases hex : (startsWithNine line && allNine (pyStrip line)) = true
  · rw [if_pos hex]
    unfold stepLine
    rw [if_neg (by simpa using hnb)]
    have hc : (line.length != 94 && !(startsWithNine line && allNine (pyStrip line)))
        = false := by
      rw [hex]
      simp
    simp only [hc, Bool.false_eq_true, if_false]
  · rw [if_neg hex]
    unfold stepLine
    rw [if_neg (by simpa using hnb)]
    have hstrict : allNine line = false := by
      cases hax : allNine line with
      | false => rfl
      | true =>
        exact absurd (by
          rw [Bool.and_eq_true]
          exact ⟨startsWithNine_of_allNine hnb hax, allNine_pyStrip hax⟩) hex
    have hex' : (startsWithNine line && allNine (pyStrip line)) = false :=
      Bool.not_eq_true _ ▸ Bool.of_not_eq_true hex
    have hc : (line.length != 94 && !(startsWithNine line && allNine (pyStrip line)))
        = true := by
      rw [hex', bne_iff_ne.mpr hlen]
      simp
    simp only [hc, if_true, hstrict, Bool.not_false]

/-- C6 witness: on the two-character line `" 9"` the excuse fails (it does
not start with '9'), so the LengthError is appended before decoding. -/
theorem C6_length_check_witness :
    stepLine RECORD_DEFINITIONS initState 1 " 9"
      = dispatchDecoded RECORD_DEFINITIONS
          (if startsWithNine " 9" && allNine (pyStrip " 9") then initState
           else { initState with errors := initState.errors ++ [lengthMsg 1 " 9"] }) 1 " 9" :=
  C6_length_check initState 1 " 9" (by decide) (by decide)

/-- C10 amended: for every input that is neither a string nor a list
(of anything), the parser does not raise and returns exactly one
diagnostic — the invalid-content-type message — with no file header, no
batches, no file control and no other records. -/
theorem C10_invalid_content_type :
    parse_ach_file_content RECORD_DEFINITIONS AchContent.other
      = Except.ok ⟨none, [], none, [invalidContentMsg], []⟩ := rfl

end ACH
